import Mathlib

/-!
Verification development for the diet-wise repository.

The core under scrutiny is the `generate-diet-plan` edge function
(`src/unnamed/part_000`): a calorie-target computation over JavaScript
numbers, a greedy brace-span extraction over the generated text, a JSON
parse with a deterministic fallback plan, and the surrounding handler
with its error paths.

JavaScript numbers are modelled by `JSNum`: exact rationals extended with
the two infinities and NaN, so that division by zero behaves as in JS
(yielding an infinity or NaN, never an error).  JavaScript values that
flow through the parse step are modelled by `Json`.
-/

/-- Model of a JavaScript number: a finite value (idealised as an exact
rational), positive or negative infinity, or NaN. -/
inductive JSNum : Type
  | fin (q : ℚ)
  | posInf
  | negInf
  | nan
  deriving DecidableEq, Repr

namespace JSNum

/-- JS unary negation. -/
def neg : JSNum → JSNum
  | fin q => fin (-q)
  | posInf => negInf
  | negInf => posInf
  | nan => nan

/-- JS addition (IEEE-754 rules at the granularity of this model). -/
def add : JSNum → JSNum → JSNum
  | nan, _ => nan
  | _, nan => nan
  | fin a, fin b => fin (a + b)
  | posInf, negInf => nan
  | negInf, posInf => nan
  | posInf, _ => posInf
  | _, posInf => posInf
  | negInf, _ => negInf
  | _, negInf => negInf

/-- JS subtraction, `a - b = a + (-b)`. -/
def sub (a b : JSNum) : JSNum := add a (neg b)

/-- JS multiplication. -/
def mul : JSNum → JSNum → JSNum
  | nan, _ => nan
  | _, nan => nan
  | fin a, fin b => fin (a * b)
  | posInf, fin b => if 0 < b then posInf else if b < 0 then negInf else nan
  | fin a, posInf => if 0 < a then posInf else if a < 0 then negInf else nan
  | negInf, fin b => if 0 < b then negInf else if b < 0 then posInf else nan
  | fin a, negInf => if 0 < a then negInf else if a < 0 then posInf else nan
  | posInf, posInf => posInf
  | negInf, negInf => posInf
  | posInf, negInf => negInf
  | negInf, posInf => negInf

/-- JS division; division of a nonzero finite value by zero yields an
infinity, `0 / 0` yields NaN (the model has no negative zero). -/
def div : JSNum → JSNum → JSNum
  | nan, _ => nan
  | _, nan => nan
  | fin a, fin b =>
      if b = 0 then (if 0 < a then posInf else if a < 0 then negInf else nan)
      else fin (a / b)
  | posInf, fin b => if 0 ≤ b then posInf else negInf
  | negInf, fin b => if 0 ≤ b then negInf else posInf
  | fin _, posInf => fin 0
  | fin _, negInf => fin 0
  | posInf, _ => nan
  | negInf, _ => nan

instance : Neg JSNum := ⟨JSNum.neg⟩
instance : Add JSNum := ⟨JSNum.add⟩
instance : Sub JSNum := ⟨JSNum.sub⟩
instance : Mul JSNum := ⟨JSNum.mul⟩
instance : Div JSNum := ⟨JSNum.div⟩

end JSNum

/-- `Math.abs`. -/
def jabs : JSNum → JSNum
  | JSNum.fin q => JSNum.fin |q|
  | JSNum.nan => JSNum.nan
  | _ => JSNum.posInf

/-- `Math.round` on a finite value: round half toward positive infinity,
i.e. the floor of `q + 1/2`, as a rational. -/
def jroundQ (q : ℚ) : ℚ := ((⌊q + 1/2⌋ : ℤ) : ℚ)

/-- `Math.round` on a JS number. -/
def jround : JSNum → JSNum
  | JSNum.fin q => JSNum.fin (jroundQ q)
  | JSNum.posInf => JSNum.posInf
  | JSNum.negInf => JSNum.negInf
  | JSNum.nan => JSNum.nan

/-- The calorie-target computation of the handler (source lines 34-47):
absolute weight difference, divided by the duration, times 3500, divided
by 7, added to or subtracted from a two-bucket base BMR, then rounded.
All arithmetic is JS-number arithmetic. -/
def computeTargetCalories (goalType : String) (currentWeight targetWeight age goalDurationWeeks : ℚ) :
    JSNum :=
  let weightDifference := jabs (JSNum.fin targetWeight - JSNum.fin currentWeight)
  let totalWeeks := JSNum.fin goalDurationWeeks
  let weeklyWeightChange := weightDifference / totalWeeks
  let weeklyCalorieAdjustment := weeklyWeightChange * JSNum.fin 3500
  let dailyCalorieAdjustment := weeklyCalorieAdjustment / JSNum.fin 7
  let baseBMR := JSNum.fin (1500 + if age > 30 then (-100 : ℚ) else 100)
  if goalType = "weight_loss" then jround (baseBMR - dailyCalorieAdjustment)
  else jround (baseBMR + dailyCalorieAdjustment)

/-- Transcribed from the spec (claim C1): the daily calorie adjustment,
`(|targetWeightKg - currentWeightKg| / durationWeeks) * 3500 / 7`. -/
def specDailyAdj (currentWeightKg targetWeightKg durationWeeks : ℚ) : ℚ :=
  |targetWeightKg - currentWeightKg| / durationWeeks * 3500 / 7

/-- Transcribed from the spec (claim C1): the two-bucket base BMR,
`1500 + (-100 if ageYears > 30, else +100)`. -/
def specBaseBMR (ageYears : ℚ) : ℚ :=
  1500 + if ageYears > 30 then (-100 : ℚ) else 100

/-- Model of a JavaScript value as it flows through the plan-parsing step:
the possible results of `JSON.parse` together with the object literals the
handler builds itself.  Numbers are JS numbers. -/
inductive Json : Type
  | null
  | bool (b : Bool)
  | num (x : JSNum)
  | str (s : String)
  | arr (elements : List Json)
  | obj (fields : List (String × Json))

/-- The JSON whitespace characters accepted by `JSON.parse`. -/
def jsonWsChar (c : Char) : Bool :=
  c.toNat = 32 || c.toNat = 9 || c.toNat = 10 || c.toNat = 13

/-- Drop leading JSON whitespace. -/
def skipWs : List Char → List Char
  | [] => []
  | c :: cs => if jsonWsChar c then skipWs cs else c :: cs

/-- Numeric value of a decimal digit character. -/
def digitVal (c : Char) : ℕ := c.toNat - '0'.toNat

/-- Split off a maximal run of leading decimal digits. -/
def takeDigits : List Char → List Char × List Char
  | [] => ([], [])
  | c :: cs =>
      if c.isDigit then
        let (ds, r) := takeDigits cs
        (c :: ds, r)
      else ([], c :: cs)

/-- Read a digit run as a natural number. -/
def digitsToNat (ds : List Char) : ℕ := ds.foldl (fun a c => a * 10 + digitVal c) 0

/-- Value of a hexadecimal digit character, if it is one. -/
def hexDigitVal (c : Char) : Option ℕ :=
  let n := c.toNat
  if 48 ≤ n ∧ n ≤ 57 then some (n - 48)
  else if 97 ≤ n ∧ n ≤ 102 then some (n - 87)
  else if 65 ≤ n ∧ n ≤ 70 then some (n - 55)
  else none

/-- The single-character escapes of JSON strings. -/
def jsonUnescape : Char → Option Char
  | 'n' => some '\n'
  | 't' => some '\t'
  | 'r' => some '\r'
  | 'b' => some (Char.ofNat 8)
  | 'f' => some (Char.ofNat 12)
  | '/' => some '/'
  | '\\' => some '\\'
  | '"' => some '"'
  | _ => none

/-- Parse the body of a JSON string after the opening quote, returning the
decoded characters and the input after the closing quote.  Unescaped
control characters and bad escapes are rejected, as by `JSON.parse`. -/
def parseStringBody : List Char → Option (List Char × List Char)
  | [] => none
  | '"' :: rest => some ([], rest)
  | '\\' :: 'u' :: a :: b :: c :: d :: rest =>
      match hexDigitVal a, hexDigitVal b, hexDigitVal c, hexDigitVal d with
      | some va, some vb, some vc, some vd =>
          (parseStringBody rest).map
            (fun r => (Char.ofNat (((va * 16 + vb) * 16 + vc) * 16 + vd) :: r.1, r.2))
      | _, _, _, _ => none
  | '\\' :: e :: rest =>
      match jsonUnescape e with
      | some ch => (parseStringBody rest).map (fun r => (ch :: r.1, r.2))
      | none => none
  | c :: rest =>
      if c.toNat < 32 then none
      else (parseStringBody rest).map (fun r => (c :: r.1, r.2))

/-- Assemble a JSON number from its parts, as an exact rational. -/
def mkJsonNumber (neg : Bool) (intDs fracDs : List Char) (expo : ℤ) : ℚ :=
  let mag : ℚ :=
    ((digitsToNat intDs : ℚ) + (digitsToNat fracDs : ℚ) / (10 : ℚ) ^ fracDs.length) *
      (10 : ℚ) ^ expo
  if neg then -mag else mag

/-- Parse the optional exponent part of a JSON number literal and finish
the number. -/
def parseNumberExp (neg : Bool) (intDs fracDs : List Char) (cs : List Char) :
    Option (ℚ × List Char) :=
  match cs with
  | 'e' :: r | 'E' :: r =>
    let (esign, r1) : ℤ × List Char := match r with
      | '+' :: r2 => (1, r2)
      | '-' :: r2 => (-1, r2)
      | _ => (1, r)
    match takeDigits r1 with
    | ([], _) => none
    | (eds, r2) => some (mkJsonNumber neg intDs fracDs (esign * (digitsToNat eds : ℤ)), r2)
  | _ => some (mkJsonNumber neg intDs fracDs 0, cs)

/-- Parse a JSON number literal (strict grammar: no leading zeros, a
fractional point or exponent marker must be followed by digits). -/
def parseNumber (cs : List Char) : Option (ℚ × List Char) :=
  let (neg, cs1) : Bool × List Char := match cs with
    | '-' :: r => (true, r)
    | _ => (false, cs)
  match takeDigits cs1 with
  | ([], _) => none
  | (d0 :: drest, cs2) =>
    if d0 = '0' ∧ drest ≠ [] then none
    else
      let intDs := d0 :: drest
      match cs2 with
      | '.' :: r =>
        match takeDigits r with
        | ([], _) => none
        | (fracDs, cs3) => parseNumberExp neg intDs fracDs cs3
      | _ => parseNumberExp neg intDs [] cs2

mutual

/-- Parse one JSON value (no leading whitespace expected); `fuel` bounds
the recursion and is chosen generously by `jsonParse`. -/
def parseValue : ℕ → List Char → Option (Json × List Char)
  | 0, _ => none
  | _ + 1, 'n' :: 'u' :: 'l' :: 'l' :: rest => some (Json.null, rest)
  | _ + 1, 't' :: 'r' :: 'u' :: 'e' :: rest => some (Json.bool true, rest)
  | _ + 1, 'f' :: 'a' :: 'l' :: 's' :: 'e' :: rest => some (Json.bool false, rest)
  | _ + 1, '"' :: rest =>
      (parseStringBody rest).map (fun r => (Json.str (String.mk r.1), r.2))
  | f + 1, '\x7b' :: rest =>
      (match skipWs rest with
       | '\x7d' :: rest2 => some (Json.obj [], rest2)
       | rest2 => (parseMembers f rest2).map (fun r => (Json.obj r.1, r.2)))
  | f + 1, '[' :: rest =>
      (match skipWs rest with
       | ']' :: rest2 => some (Json.arr [], rest2)
       | rest2 => (parseElements f rest2).map (fun r => (Json.arr r.1, r.2)))
  | _ + 1, cs => (parseNumber cs).map (fun r => (Json.num (JSNum.fin r.1), r.2))

/-- Parse the comma-separated elements of a nonempty array, up to and
including the closing bracket. -/
def parseElements : ℕ → List Char → Option (List Json × List Char)
  | 0, _ => none
  | f + 1, cs =>
    match parseValue f cs with
    | some (v, rest) =>
      (match skipWs rest with
       | ',' :: rest2 => (parseElements f (skipWs rest2)).map (fun r => (v :: r.1, r.2))
       | ']' :: rest2 => some ([v], rest2)
       | _ => none)
    | none => none

/-- Parse the comma-separated members of a nonempty object, up to and
including the closing brace. -/
def parseMembers : ℕ → List Char → Option (List (String × Json) × List Char)
  | 0, _ => none
  | f + 1, '"' :: rest =>
    (match parseStringBody rest with
     | some (keyChars, rest1) =>
       (match skipWs rest1 with
        | ':' :: rest2 =>
          (match parseValue f (skipWs rest2) with
           | some (v, rest3) =>
             (match skipWs rest3 with
              | ',' :: rest4 =>
                  (parseMembers f (skipWs rest4)).map
                    (fun r => ((String.mk keyChars, v) :: r.1, r.2))
              | '\x7d' :: rest4 => some ([(String.mk keyChars, v)], rest4)
              | _ => none)
           | none => none)
        | _ => none)
     | none => none)
  | _ + 1, _ => none

end

/-- Model of `JSON.parse`: the whole input must be a single JSON value
surrounded by optional whitespace; `none` models a thrown `SyntaxError`. -/
def jsonParse (s : String) : Option Json :=
  match parseValue (2 * s.length + 2) (skipWs s.data) with
  | some (j, rest) => if skipWs rest = [] then some j else none
  | none => none

/-- Index of the first occurrence of a character in a list. -/
def firstIdxOf (c : Char) : List Char → Option ℕ
  | [] => none
  | x :: xs => if x = c then some 0 else (firstIdxOf c xs).map (· + 1)

/-- Index of the last occurrence of a character in a list. -/
def lastIdxOf (c : Char) (cs : List Char) : Option ℕ :=
  (firstIdxOf c cs.reverse).map (fun k => cs.length - 1 - k)

/-- Model of `generatedText.match(/\x7b[\s\S]*\x7d/)` at source line 133:
the regex matches greedily from the first opening brace to the last
closing brace of the text, provided the latter comes after the former. -/
def extractBraceSpan (s : String) : Option String :=
  match firstIdxOf '\x7b' s.data, lastIdxOf '\x7d' s.data with
  | some i, some j =>
      if i < j then some (String.mk ((s.data.drop i).take (j - i + 1))) else none
  | _, _ => none

/-- The hardcoded fallback diet plan built at source lines 142-166 when
JSON extraction or parsing fails; meal calories are `Math.round` of fixed
fractions of the target. -/
def fallbackPlanJson (targetCalories : JSNum) : Json :=
  Json.obj [
    ("dailyCalories", Json.num targetCalories),
    ("breakfast", Json.obj [
      ("foods", Json.arr [Json.str "2 slices whole grain toast", Json.str "1 medium banana",
        Json.str "1 tbsp peanut butter"]),
      ("calories", Json.num (jround (targetCalories * JSNum.fin 0.25))),
      ("description", Json.str "Balanced breakfast with complex carbs and protein")]),
    ("lunch", Json.obj [
      ("foods", Json.arr [Json.str "Mixed green salad", Json.str "Grilled chicken breast (100g)",
        Json.str "1 cup quinoa"]),
      ("calories", Json.num (jround (targetCalories * JSNum.fin 0.35))),
      ("description", Json.str "Protein-rich lunch with fiber and nutrients")]),
    ("dinner", Json.obj [
      ("foods", Json.arr [Json.str "Grilled fish (150g)", Json.str "Steamed vegetables",
        Json.str "1 cup brown rice"]),
      ("calories", Json.num (jround (targetCalories * JSNum.fin 0.30))),
      ("description", Json.str "Light dinner with lean protein and vegetables")]),
    ("snacks", Json.arr [
      Json.obj [
        ("name", Json.str "Greek yogurt with berries"),
        ("foods", Json.arr [Json.str "1 cup Greek yogurt", Json.str "1/2 cup mixed berries"]),
        ("calories", Json.num (jround (targetCalories * JSNum.fin 0.10)))]])]

/-- The try-block of the parse step (source lines 131-138): extract the
brace span and run `JSON.parse` on it; an `Except.error` models a thrown
exception (`No JSON found in response`, or a `SyntaxError` from
`JSON.parse`). -/
def tryParseDietPlan (generatedText : String) : Except String Json :=
  match extractBraceSpan generatedText with
  | some jsonMatch =>
    match jsonParse jsonMatch with
    | some j => Except.ok j
    | none => Except.error "SyntaxError: JSON.parse"
  | none => Except.error "No JSON found in response"

/-- The complete parse step (source lines 130-167): any exception from
the try-block is caught and replaced by the fallback plan built from the
previously computed calorie target. -/
def parseDietPlan (generatedText : String) (targetCalories : JSNum) : Json :=
  match tryParseDietPlan generatedText with
  | Except.ok dietPlan => dietPlan
  | Except.error _ => fallbackPlanJson targetCalories

/-- Property lookup on a JS object: the value of the last field with the
given key (later duplicate keys overwrite earlier ones), `none` when the
key is absent. -/
def lookupField : List (String × Json) → String → Option Json
  | [], _ => none
  | (k, v) :: rest, key =>
    match lookupField rest key with
    | some r => some r
    | none => if k = key then some v else none

/-- JS property access `j[key]`; `none` models `undefined`. -/
def jsGetField (j : Json) (key : String) : Option Json :=
  match j with
  | Json.obj fs => lookupField fs key
  | _ => none

/-- JS element access `j[0]`. -/
def jsIndexZero : Json → Option Json
  | Json.arr xs => xs.head?
  | Json.obj fs => lookupField fs "0"
  | Json.str s =>
    match s.data with
    | [] => none
    | c :: _ => some (Json.str (String.mk [c]))
  | _ => none

/-- JS truthiness of a value. -/
def jsTruthy : Json → Bool
  | Json.null => false
  | Json.bool b => b
  | Json.num (JSNum.fin q) => decide (q ≠ 0)
  | Json.num JSNum.nan => false
  | Json.num _ => true
  | Json.str s => decide (s ≠ "")
  | Json.arr _ => true
  | Json.obj _ => true

/-- Truthiness of a possibly-`undefined` value. -/
def jsTruthyOpt : Option Json → Bool
  | some j => jsTruthy j
  | none => false

/-- Whether a JSON value is an array of strings. -/
def isStringArr : Json → Bool
  | Json.arr xs => xs.all (fun j => match j with | Json.str _ => true | _ => false)
  | _ => false

/-- Whether a field of an object is a number. -/
def fieldIsNum (j : Json) (key : String) : Bool :=
  match jsGetField j key with
  | some (Json.num _) => true
  | _ => false

/-- Whether a field of an object is a string. -/
def fieldIsStr (j : Json) (key : String) : Bool :=
  match jsGetField j key with
  | some (Json.str _) => true
  | _ => false

/-- Conformance to the meal shape declared in the prompt (source lines
72-86): string-array `foods`, numeric `calories`, string `description`. -/
def isMealShape (j : Json) : Bool :=
  (match jsGetField j "foods" with
   | some f => isStringArr f
   | none => false) &&
  fieldIsNum j "calories" && fieldIsStr j "description"

/-- Conformance to the snack shape declared in the prompt (source lines
87-94): string `name`, string-array `foods`, numeric `calories`. -/
def isSnackShape (j : Json) : Bool :=
  fieldIsStr j "name" &&
  (match jsGetField j "foods" with
   | some f => isStringArr f
   | none => false) &&
  fieldIsNum j "calories"

/-- Conformance to the DietPlan shape declared in the prompt (source
lines 70-94): numeric `dailyCalories`, three meals, and an array of
snacks. -/
def isDietPlanShape (j : Json) : Bool :=
  fieldIsNum j "dailyCalories" &&
  (match jsGetField j "breakfast" with | some m => isMealShape m | none => false) &&
  (match jsGetField j "lunch" with | some m => isMealShape m | none => false) &&
  (match jsGetField j "dinner" with | some m => isMealShape m | none => false) &&
  (match jsGetField j "snacks" with
   | some (Json.arr xs) => xs.all isSnackShape
   | _ => false)

/-- The `calories` field of a named meal of a plan. -/
def mealCalories (plan : Json) (meal : String) : Option Json :=
  (jsGetField plan meal).bind (fun m => jsGetField m "calories")

/-- The `calories` field of the first snack of a plan. -/
def firstSnackCalories (plan : Json) : Option Json :=
  ((jsGetField plan "snacks").bind jsIndexZero).bind (fun s => jsGetField s "calories")

/-- The request body shape of the edge function (source lines 9-16). -/
structure DietPlanRequest : Type where
  goalType : String
  currentWeight : ℚ
  targetWeight : ℚ
  age : ℚ
  dietPreference : String
  goalDurationWeeks : ℚ

/-- The observable part of the provider's HTTP response: the `ok` flag,
status line data, and the parsed JSON body. -/
structure ProviderResponse : Type where
  ok : Bool
  status : ℕ
  statusText : String
  body : Json

/-- Outcome of one handler invocation: a diet plan, or a caught error
that becomes the `\x7berror, details\x7d` envelope with HTTP status 500. -/
inductive HandlerOutcome : Type
  | success (plan : Json)
  | failure (errMessage : String)

/-- The check at source line 122:
`!data.candidates || !data.candidates[0] || !data.candidates[0].content`
(property access on a non-object yields `undefined`, which is falsy). -/
def invalidEnvelope (data : Json) : Bool :=
  let candidates := jsGetField data "candidates"
  let c0 := candidates.bind jsIndexZero
  let content := c0.bind (fun j => jsGetField j "content")
  !jsTruthyOpt candidates || !jsTruthyOpt c0 || !jsTruthyOpt content

/-- The unchecked access `data.candidates[0].content.parts[0].text` at
source line 126; `none` models the `TypeError` raised (and caught by the
outer handler) when a link of the chain is missing or the result is not a
string (a non-string has no `.match`). -/
def extractGeneratedText (data : Json) : Option String :=
  match ((((jsGetField data "candidates").bind jsIndexZero).bind
      (fun j => jsGetField j "content")).bind
      (fun j => jsGetField j "parts")).bind jsIndexZero with
  | some p =>
    match jsGetField p "text" with
    | some (Json.str s) => some s
    | _ => none
  | none => none

/-- The handler body (source lines 24-182) as a function of the
environment credential, the parsed request, and the provider's response
to the single outbound call.  The second component records whether that
network call was made.  A `TypeError` from the unchecked text access is
modelled by a failure outcome whose message is not otherwise fixed here;
property access on a `null` body likewise surfaces as the envelope
failure (same caught-exception outcome, message idealised). -/
def handleRequest (geminiApiKey : Option String) (req : DietPlanRequest)
    (resp : ProviderResponse) : HandlerOutcome × Bool :=
  match geminiApiKey with
  | none => (HandlerOutcome.failure "GEMINI_API_KEY not found in environment variables", false)
  | some key =>
    if key = "" then
      (HandlerOutcome.failure "GEMINI_API_KEY not found in environment variables", false)
    else if !resp.ok then
      (HandlerOutcome.failure
        ("Gemini API error: " ++ toString resp.status ++ " " ++ resp.statusText), true)
    else if invalidEnvelope resp.body then
      (HandlerOutcome.failure "Invalid response from Gemini API", true)
    else
      match extractGeneratedText resp.body with
      | some generatedText =>
        (HandlerOutcome.success (parseDietPlan generatedText
          (computeTargetCalories req.goalType req.currentWeight req.targetWeight
            req.age req.goalDurationWeeks)), true)
      | none => (HandlerOutcome.failure "TypeError: cannot read properties of undefined", true)

/-- Test fixture: a minimal generated text that is exactly one JSON
object conforming to the DietPlan shape of the prompt. -/
def c5PlanText : String :=
  "\x7b\"dailyCalories\":2000,\"breakfast\":\x7b\"foods\":[\"a\"],\"calories\":500,\"description\":\"d\"\x7d,\"lunch\":\x7b\"foods\":[\"b\"],\"calories\":700,\"description\":\"d\"\x7d,\"dinner\":\x7b\"foods\":[\"c\"],\"calories\":600,\"description\":\"d\"\x7d,\"snacks\":[\x7b\"name\":\"s\",\"foods\":[\"e\"],\"calories\":200\x7d]\x7d"

/-- Test fixture: the same text followed by commentary containing a stray
closing brace, which the greedy extraction swallows. -/
def c5BadText : String := c5PlanText ++ " \x7d"

/-- The HTTP response produced from an outcome (source lines 169-182):
a success is returned as the plan itself; a caught error becomes the
`\x7berror, details\x7d` envelope with status 500. -/
def handlerHttp : HandlerOutcome → Json × ℕ
  | HandlerOutcome.success plan => (plan, 200)
  | HandlerOutcome.failure msg =>
      (Json.obj [("error", Json.str msg),
        ("details", Json.str "Failed to generate diet plan")], 500)

/-! ### Basic lemmas about JS-number arithmetic -/

theorem JSNum.fin_add_fin (a b : ℚ) : JSNum.fin a + JSNum.fin b = JSNum.fin (a + b) := rfl

theorem JSNum.fin_sub_fin (a b : ℚ) : JSNum.fin a - JSNum.fin b = JSNum.fin (a - b) := by
  show JSNum.add (JSNum.fin a) (JSNum.neg (JSNum.fin b)) = _
  simp [JSNum.add, JSNum.neg, sub_eq_add_neg]

theorem JSNum.fin_mul_fin (a b : ℚ) : JSNum.fin a * JSNum.fin b = JSNum.fin (a * b) := rfl

theorem JSNum.fin_div_fin (a : ℚ) {b : ℚ} (hb : b ≠ 0) :
    JSNum.fin a / JSNum.fin b = JSNum.fin (a / b) := by
  show JSNum.div (JSNum.fin a) (JSNum.fin b) = _
  simp [JSNum.div, hb]

theorem jabs_fin (q : ℚ) : jabs (JSNum.fin q) = JSNum.fin |q| := rfl

theorem jround_fin (q : ℚ) : jround (JSNum.fin q) = JSNum.fin (jroundQ q) := rfl

theorem JSNum.fin_div_zero_pos {a : ℚ} (ha : 0 < a) :
    JSNum.fin a / JSNum.fin 0 = JSNum.posInf := by
  show JSNum.div (JSNum.fin a) (JSNum.fin 0) = _
  simp [JSNum.div, ha]

theorem JSNum.zero_div_zero : JSNum.fin 0 / JSNum.fin 0 = JSNum.nan := by
  show JSNum.div (JSNum.fin 0) (JSNum.fin 0) = _
  simp [JSNum.div]

theorem JSNum.posInf_mul_fin_pos {b : ℚ} (hb : 0 < b) :
    JSNum.posInf * JSNum.fin b = JSNum.posInf := by
  show JSNum.mul JSNum.posInf (JSNum.fin b) = _
  simp [JSNum.mul, hb]

theorem JSNum.posInf_div_fin_nonneg {b : ℚ} (hb : 0 ≤ b) :
    JSNum.posInf / JSNum.fin b = JSNum.posInf := by
  show JSNum.div JSNum.posInf (JSNum.fin b) = _
  simp [JSNum.div, hb]

theorem JSNum.fin_sub_posInf (a : ℚ) : JSNum.fin a - JSNum.posInf = JSNum.negInf := rfl

theorem JSNum.fin_add_posInf (a : ℚ) : JSNum.fin a + JSNum.posInf = JSNum.posInf := rfl

theorem JSNum.nan_mul_fin (b : ℚ) : JSNum.nan * JSNum.fin b = JSNum.nan := rfl

theorem JSNum.nan_div_fin (b : ℚ) : JSNum.nan / JSNum.fin b = JSNum.nan := rfl

theorem JSNum.fin_sub_nan (a : ℚ) : JSNum.fin a - JSNum.nan = JSNum.nan := rfl

theorem JSNum.fin_add_nan (a : ℚ) : JSNum.fin a + JSNum.nan = JSNum.nan := rfl

theorem jround_posInf : jround JSNum.posInf = JSNum.posInf := rfl

theorem jround_negInf : jround JSNum.negInf = JSNum.negInf := rfl

theorem jround_nan : jround JSNum.nan = JSNum.nan := rfl

/-- On a nonzero duration the calorie computation stays in the finite
fragment of JS arithmetic and equals the exact rational formula. -/
theorem computeTargetCalories_fin (gt : String) (cw tw age dw : ℚ) (hdw : dw ≠ 0) :
    computeTargetCalories gt cw tw age dw =
      if gt = "weight_loss" then JSNum.fin (jroundQ (specBaseBMR age - specDailyAdj cw tw dw))
      else JSNum.fin (jroundQ (specBaseBMR age + specDailyAdj cw tw dw)) := by
  unfold computeTargetCalories specBaseBMR specDailyAdj
  simp only [JSNum.fin_sub_fin, jabs_fin, JSNum.fin_div_fin _ hdw, JSNum.fin_mul_fin,
    JSNum.fin_div_fin _ (show (7 : ℚ) ≠ 0 by norm_num), JSNum.fin_add_fin, jround_fin]

theorem computeTargetCalories_durationZero_loss (cw tw age : ℚ) (hne : cw ≠ tw) :
    computeTargetCalories "weight_loss" cw tw age 0 = JSNum.negInf := by
  have hpos : 0 < |tw - cw| := abs_pos.mpr (sub_ne_zero.mpr (Ne.symm hne))
  unfold computeTargetCalories
  simp only [JSNum.fin_sub_fin, jabs_fin, JSNum.fin_div_zero_pos hpos,
    JSNum.posInf_mul_fin_pos (show (0 : ℚ) < 3500 by norm_num),
    JSNum.posInf_div_fin_nonneg (show (0 : ℚ) ≤ 7 by norm_num),
    JSNum.fin_sub_posInf, JSNum.fin_add_posInf, jround_negInf, jround_posInf]
  rw [if_true]

theorem computeTargetCalories_durationZero_other (gt : String) (cw tw age : ℚ)
    (hne : cw ≠ tw) (hgt : gt ≠ "weight_loss") :
    computeTargetCalories gt cw tw age 0 = JSNum.posInf := by
  have hpos : 0 < |tw - cw| := abs_pos.mpr (sub_ne_zero.mpr (Ne.symm hne))
  unfold computeTargetCalories
  simp only [JSNum.fin_sub_fin, jabs_fin, JSNum.fin_div_zero_pos hpos,
    JSNum.posInf_mul_fin_pos (show (0 : ℚ) < 3500 by norm_num),
    JSNum.posInf_div_fin_nonneg (show (0 : ℚ) ≤ 7 by norm_num),
    JSNum.fin_sub_posInf, JSNum.fin_add_posInf, jround_negInf, jround_posInf]
  rw [if_neg hgt]

theorem computeTargetCalories_durationZero_equal (gt : String) (cw age : ℚ) :
    computeTargetCalories gt cw cw age 0 = JSNum.nan := by
  unfold computeTargetCalories
  simp only [JSNum.fin_sub_fin, sub_self, jabs_fin, abs_zero, JSNum.zero_div_zero,
    JSNum.nan_mul_fin, JSNum.nan_div_fin, JSNum.fin_sub_nan, JSNum.fin_add_nan, jround_nan,
    ite_self]

/-- Claim C1 (confirmed): for every input with `durationWeeks ≥ 1` the
computation returns `round(baseBMR - dailyAdj)` when the goal type is
`weight_loss` and `round(baseBMR + dailyAdj)` otherwise, with
`dailyAdj = (|targetWeightKg - currentWeightKg| / durationWeeks) * 3500 / 7`
and `baseBMR = 1500 + (-100 if ageYears > 30, else +100)`. -/
theorem calorieTarget_matches_spec_formula (gt : String) (cw tw age dw : ℚ) (h : 1 ≤ dw) :
    computeTargetCalories gt cw tw age dw =
      if gt = "weight_loss" then JSNum.fin (jroundQ (specBaseBMR age - specDailyAdj cw tw dw))
      else JSNum.fin (jroundQ (specBaseBMR age + specDailyAdj cw tw dw)) :=
  computeTargetCalories_fin gt cw tw age dw (lt_of_lt_of_le one_pos h).ne'

/-- Witness for C1 at a concrete input. -/
theorem calorieTarget_matches_spec_formula_witness :
    computeTargetCalories "weight_loss" 80 70 30 10 = JSNum.fin 1100 := by
  rw [calorieTarget_matches_spec_formula "weight_loss" 80 70 30 10 (by norm_num)]
  norm_num [specBaseBMR, specDailyAdj, jroundQ]

/-- Claim C7 (confirmed): the two worked examples of the spec; age 30
falls in the `+100` bucket because the test is strictly greater-than. -/
theorem calorieTarget_worked_examples :
    computeTargetCalories "weight_loss" 80 70 30 10 = JSNum.fin 1100 ∧
    computeTargetCalories "weight_gain" 60 70 35 20 = JSNum.fin 1650 := by
  constructor
  · rw [computeTargetCalories_fin _ _ _ _ _ (show (10 : ℚ) ≠ 0 by norm_num)]
    norm_num [specBaseBMR, specDailyAdj, jroundQ]
  · rw [computeTargetCalories_fin _ _ _ _ _ (show (20 : ℚ) ≠ 0 by norm_num),
      if_neg (show ¬("weight_gain" : String) = "weight_loss" by decide)]
    norm_num [specBaseBMR, specDailyAdj, jroundQ]

/-- Claim C9 (confirmed): swapping the two weights leaves the result
unchanged, because only the absolute difference is used. -/
theorem calorieTarget_weight_symmetric (gt : String) (cw tw age dw : ℚ) (_h : 1 ≤ dw) :
    computeTargetCalories gt cw tw age dw = computeTargetCalories gt tw cw age dw := by
  have habs : jabs (JSNum.fin tw - JSNum.fin cw) = jabs (JSNum.fin cw - JSNum.fin tw) := by
    rw [JSNum.fin_sub_fin, JSNum.fin_sub_fin, jabs_fin, jabs_fin, abs_sub_comm]
  unfold computeTargetCalories
  rw [habs]

/-- Witness for C9 at a concrete input. -/
theorem calorieTarget_weight_symmetric_witness :
    computeTargetCalories "weight_loss" 80 70 30 10 =
      computeTargetCalories "weight_loss" 70 80 30 10 :=
  calorieTarget_weight_symmetric "weight_loss" 80 70 30 10 (by norm_num)

/-- Claim C8 counterexample: with durationWeeks = 0 the code does not
fail; the division yields Infinity and the result is the JS number
`-Infinity` (no error is thrown anywhere in the computation). -/
theorem durationZero_counterexample :
    computeTargetCalories "weight_loss" 80 70 30 0 = JSNum.negInf :=
  computeTargetCalories_durationZero_loss 80 70 30 (by norm_num)

/-- Claim C8 as amended: when durationWeeks = 0 the computation does not
fail with a DivisionByZero error; per JS semantics it produces `-Infinity`
for weight_loss (`+Infinity` for any other goal type) when the weights
differ, and `NaN` when they are equal. -/
theorem durationZero_nonfinite (gt : String) (cw tw age : ℚ) (hne : cw ≠ tw) :
    computeTargetCalories "weight_loss" cw tw age 0 = JSNum.negInf ∧
    (gt ≠ "weight_loss" → computeTargetCalories gt cw tw age 0 = JSNum.posInf) ∧
    computeTargetCalories gt cw cw age 0 = JSNum.nan :=
  ⟨computeTargetCalories_durationZero_loss cw tw age hne,
   fun hgt => computeTargetCalories_durationZero_other gt cw tw age hne hgt,
   computeTargetCalories_durationZero_equal gt cw age⟩

/-- Witness for the amended C8 at concrete inputs. -/
theorem durationZero_nonfinite_witness :
    computeTargetCalories "weight_loss" 80 70 30 0 = JSNum.negInf ∧
    computeTargetCalories "weight_gain" 80 70 30 0 = JSNum.posInf ∧
    computeTargetCalories "weight_gain" 80 80 30 0 = JSNum.nan := by
  obtain ⟨h1, h2, h3⟩ := durationZero_nonfinite "weight_gain" 80 70 30 (by norm_num)
  exact ⟨h1, h2 (by decide), h3⟩

/-- Claim C10 (confirmed): there are goal parameters meeting every
declared precondition (positive weights, positive integer age, integer
durationWeeks ≥ 1) for which the computed target is a negative integer,
and the fallback plan built from that target has negative calorie fields
in every meal and in its snack. -/
theorem negativeTarget_negative_fallback_meals :
    ∃ (gt : String) (cw tw age dw : ℚ),
      0 < cw ∧ 0 < tw ∧ (∃ a : ℕ, age = (a : ℚ) ∧ 0 < a) ∧
      (∃ w : ℕ, dw = (w : ℚ) ∧ 1 ≤ w) ∧
      ∃ n : ℤ, n < 0 ∧
        computeTargetCalories gt cw tw age dw = JSNum.fin (n : ℚ) ∧
        (∃ qb : ℚ, qb < 0 ∧
          mealCalories (fallbackPlanJson (JSNum.fin (n : ℚ))) "breakfast" =
            some (Json.num (JSNum.fin qb))) ∧
        (∃ ql : ℚ, ql < 0 ∧
          mealCalories (fallbackPlanJson (JSNum.fin (n : ℚ))) "lunch" =
            some (Json.num (JSNum.fin ql))) ∧
        (∃ qd : ℚ, qd < 0 ∧
          mealCalories (fallbackPlanJson (JSNum.fin (n : ℚ))) "dinner" =
            some (Json.num (JSNum.fin qd))) ∧
        (∃ qs : ℚ, qs < 0 ∧
          firstSnackCalories (fallbackPlanJson (JSNum.fin (n : ℚ))) =
            some (Json.num (JSNum.fin qs))) := by
  refine ⟨"weight_loss", 200, 100, 25, 1, by norm_num, by norm_num, ⟨25, by norm_num, by norm_num⟩,
    ⟨1, by norm_num, le_refl 1⟩, -48400, by norm_num, ?_, ?_, ?_, ?_, ?_⟩
  · rw [computeTargetCalories_fin _ _ _ _ _ (show (1 : ℚ) ≠ 0 by norm_num)]
    norm_num [specBaseBMR, specDailyAdj, jroundQ]
  · refine ⟨jroundQ (((-48400 : ℤ) : ℚ) * 0.25), by norm_num [jroundQ], ?_⟩
    rw [show mealCalories (fallbackPlanJson (JSNum.fin ((-48400 : ℤ) : ℚ))) "breakfast" =
      some (Json.num (jround (JSNum.fin ((-48400 : ℤ) : ℚ) * JSNum.fin 0.25))) from rfl,
      JSNum.fin_mul_fin, jround_fin]
  · refine ⟨jroundQ (((-48400 : ℤ) : ℚ) * 0.35), by norm_num [jroundQ], ?_⟩
    rw [show mealCalories (fallbackPlanJson (JSNum.fin ((-48400 : ℤ) : ℚ))) "lunch" =
      some (Json.num (jround (JSNum.fin ((-48400 : ℤ) : ℚ) * JSNum.fin 0.35))) from rfl,
      JSNum.fin_mul_fin, jround_fin]
  · refine ⟨jroundQ (((-48400 : ℤ) : ℚ) * 0.30), by norm_num [jroundQ], ?_⟩
    rw [show mealCalories (fallbackPlanJson (JSNum.fin ((-48400 : ℤ) : ℚ))) "dinner" =
      some (Json.num (jround (JSNum.fin ((-48400 : ℤ) : ℚ) * JSNum.fin 0.30))) from rfl,
      JSNum.fin_mul_fin, jround_fin]
  · refine ⟨jroundQ (((-48400 : ℤ) : ℚ) * 0.10), by norm_num [jroundQ], ?_⟩
    rw [show firstSnackCalories (fallbackPlanJson (JSNum.fin ((-48400 : ℤ) : ℚ))) =
      some (Json.num (jround (JSNum.fin ((-48400 : ℤ) : ℚ) * JSNum.fin 0.10))) from rfl,
      JSNum.fin_mul_fin, jround_fin]

/-! ### Extraction lemmas -/

theorem firstIdxOf_cons_self (c : Char) (l : List Char) : firstIdxOf c (c :: l) = some 0 := by
  unfold firstIdxOf
  rw [if_pos rfl]

theorem firstIdxOf_prefix_cons (c : Char) :
    ∀ (l₁ : List Char), c ∉ l₁ → ∀ l₂, firstIdxOf c (l₁ ++ c :: l₂) = some l₁.length
  | [], _, l₂ => by simpa using firstIdxOf_cons_self c l₂
  | x :: xs, h, l₂ => by
    have hx : ¬x = c := fun hxc => h (hxc ▸ List.mem_cons_self x xs)
    have hxs : c ∉ xs := fun hm => h (List.mem_cons_of_mem x hm)
    show firstIdxOf c (x :: (xs ++ c :: l₂)) = some (x :: xs).length
    unfold firstIdxOf
    rw [if_neg hx, firstIdxOf_prefix_cons c xs hxs l₂]
    simp [Nat.add_comm]

theorem lastIdxOf_parts (pl ml sl : List Char) (hsuf : '\x7d' ∉ sl) :
    lastIdxOf '\x7d' (pl ++ '\x7b' :: (ml ++ '\x7d' :: sl)) =
      some (pl.length + ml.length + 1) := by
  unfold lastIdxOf
  have hrev : (pl ++ '\x7b' :: (ml ++ '\x7d' :: sl)).reverse =
      sl.reverse ++ '\x7d' :: (ml.reverse ++ '\x7b' :: pl.reverse) := by
    simp
  rw [hrev, firstIdxOf_prefix_cons _ _ (by simpa using hsuf) _]
  simp
  omega

theorem extractBraceSpan_mk (pl ml sl : List Char) (hpre : '\x7b' ∉ pl) (hsuf : '\x7d' ∉ sl) :
    extractBraceSpan (String.mk (pl ++ '\x7b' :: (ml ++ '\x7d' :: sl))) =
      some (String.mk ('\x7b' :: (ml ++ ['\x7d']))) := by
  have hfirst : firstIdxOf '\x7b' (pl ++ '\x7b' :: (ml ++ '\x7d' :: sl)) = some pl.length :=
    firstIdxOf_prefix_cons _ pl hpre _
  have hlast := lastIdxOf_parts pl ml sl hsuf
  unfold extractBraceSpan
  simp only [hfirst, hlast]
  rw [if_pos (show pl.length < pl.length + ml.length + 1 by omega)]
  rw [show (pl ++ '\x7b' :: (ml ++ '\x7d' :: sl)).drop pl.length = '\x7b' :: (ml ++ '\x7d' :: sl)
    from List.drop_left _ _]
  rw [show pl.length + ml.length + 1 - pl.length + 1 = ml.length + 2 by omega]
  have htake : ('\x7b' :: (ml ++ '\x7d' :: sl)).take (ml.length + 2) = '\x7b' :: (ml ++ ['\x7d']) := by
    rw [show '\x7b' :: (ml ++ '\x7d' :: sl) = ('\x7b' :: (ml ++ ['\x7d'])) ++ sl by simp]
    exact List.take_left' (by simp only [List.length_cons, List.length_append, List.length_nil])
  rw [htake]

/-- Leftmost-greedy span of the brace regex: given any decomposition of
the text with no opening brace before the marked one and no closing
brace after the marked one, extraction returns exactly the substring
from that first opening brace to that last closing brace. -/
theorem extractBraceSpan_greedy (pre mid suf : String)
    (hpre : '\x7b' ∉ pre.data) (hsuf : '\x7d' ∉ suf.data) :
    extractBraceSpan (pre ++ "\x7b" ++ mid ++ "\x7d" ++ suf) = some ("\x7b" ++ mid ++ "\x7d") := by
  obtain ⟨pl⟩ := pre
  obtain ⟨ml⟩ := mid
  obtain ⟨sl⟩ := suf
  have hs : (String.mk pl ++ "\x7b" ++ String.mk ml ++ "\x7d" ++ String.mk sl) =
      String.mk (pl ++ '\x7b' :: (ml ++ '\x7d' :: sl)) := by
    show String.mk ((((pl ++ ['\x7b']) ++ ml) ++ ['\x7d']) ++ sl) = _
    simp
  have hspan : ("\x7b" ++ String.mk ml ++ "\x7d" : String) =
      String.mk ('\x7b' :: (ml ++ ['\x7d'])) := by
    show String.mk ((('\x7b' :: ml)) ++ ['\x7d']) = _
    simp
  rw [hs, hspan]
  exact extractBraceSpan_mk pl ml sl hpre hsuf

/-- Claim C2 (confirmed): the parse step is total; a thrown extraction
or parsing error is caught and replaced by the fallback plan, and the
result is always either the parsed value or the fallback plan — no error
reaches the caller. -/
theorem parse_never_fails_outward (text : String) (t : JSNum) :
    (∀ e, tryParseDietPlan text = Except.error e → parseDietPlan text t = fallbackPlanJson t) ∧
    (parseDietPlan text t = fallbackPlanJson t ∨
      ∃ j, tryParseDietPlan text = Except.ok j ∧ parseDietPlan text t = j) := by
  constructor
  · intro e he
    unfold parseDietPlan
    rw [he]
  · cases h : tryParseDietPlan text with
    | error e => exact Or.inl (by unfold parseDietPlan; rw [h])
    | ok j => exact Or.inr ⟨j, rfl, by unfold parseDietPlan; rw [h]⟩

/-- Witness for C2 at a concrete input with no JSON in it. -/
theorem parse_never_fails_outward_witness :
    parseDietPlan "no braces at all" (JSNum.fin 1100) = fallbackPlanJson (JSNum.fin 1100) :=
  (parse_never_fails_outward "no braces at all" (JSNum.fin 1100)).1
    "No JSON found in response" rfl

/-- Claim C3 (confirmed): whenever the fallback path is taken, the plan
returned is the fallback plan built from the computed calorie target: its
`dailyCalories` equals the target computed from the originating goal
parameters, its meals carry `round` of 25%, 35% and 30% of the target,
it has exactly one snack at 10% of the target, and the food lists are
fixed constants independent of the input. -/
theorem fallback_plan_structure (gt : String) (cw tw age dw : ℚ) (text : String)
    (hdw : 1 ≤ dw) (hfail : ∃ e, tryParseDietPlan text = Except.error e) :
    ∃ t : ℚ,
      computeTargetCalories gt cw tw age dw = JSNum.fin t ∧
      parseDietPlan text (JSNum.fin t) = fallbackPlanJson (JSNum.fin t) ∧
      jsGetField (fallbackPlanJson (JSNum.fin t)) "dailyCalories" =
        some (Json.num (JSNum.fin t)) ∧
      mealCalories (fallbackPlanJson (JSNum.fin t)) "breakfast" =
        some (Json.num (JSNum.fin (jroundQ (0.25 * t)))) ∧
      mealCalories (fallbackPlanJson (JSNum.fin t)) "lunch" =
        some (Json.num (JSNum.fin (jroundQ (0.35 * t)))) ∧
      mealCalories (fallbackPlanJson (JSNum.fin t)) "dinner" =
        some (Json.num (JSNum.fin (jroundQ (0.30 * t)))) ∧
      (∃ snack : Json,
        jsGetField (fallbackPlanJson (JSNum.fin t)) "snacks" = some (Json.arr [snack]) ∧
        jsGetField snack "calories" = some (Json.num (JSNum.fin (jroundQ (0.10 * t)))) ∧
        jsGetField snack "foods" =
          some (Json.arr [Json.str "1 cup Greek yogurt", Json.str "1/2 cup mixed berries"])) ∧
      (jsGetField (fallbackPlanJson (JSNum.fin t)) "breakfast").bind
          (fun m => jsGetField m "foods") =
        some (Json.arr [Json.str "2 slices whole grain toast", Json.str "1 medium banana",
          Json.str "1 tbsp peanut butter"]) ∧
      (jsGetField (fallbackPlanJson (JSNum.fin t)) "lunch").bind
          (fun m => jsGetField m "foods") =
        some (Json.arr [Json.str "Mixed green salad", Json.str "Grilled chicken breast (100g)",
          Json.str "1 cup quinoa"]) ∧
      (jsGetField (fallbackPlanJson (JSNum.fin t)) "dinner").bind
          (fun m => jsGetField m "foods") =
        some (Json.arr [Json.str "Grilled fish (150g)", Json.str "Steamed vegetables",
          Json.str "1 cup brown rice"]) := by
  refine ⟨if gt = "weight_loss" then jroundQ (specBaseBMR age - specDailyAdj cw tw dw)
    else jroundQ (specBaseBMR age + specDailyAdj cw tw dw), ?_, ?_, rfl, ?_, ?_, ?_, ?_, rfl,
    rfl, rfl⟩
  · rw [computeTargetCalories_fin gt cw tw age dw (lt_of_lt_of_le one_pos hdw).ne',
      apply_ite JSNum.fin]
  · obtain ⟨e, he⟩ := hfail
    unfold parseDietPlan
    rw [he]
  · rw [show mealCalories (fallbackPlanJson (JSNum.fin _)) "breakfast" =
      some (Json.num (jround (JSNum.fin _ * JSNum.fin 0.25))) from rfl,
      JSNum.fin_mul_fin, jround_fin, mul_comm _ (0.25 : ℚ)]
  · rw [show mealCalories (fallbackPlanJson (JSNum.fin _)) "lunch" =
      some (Json.num (jround (JSNum.fin _ * JSNum.fin 0.35))) from rfl,
      JSNum.fin_mul_fin, jround_fin, mul_comm _ (0.35 : ℚ)]
  · rw [show mealCalories (fallbackPlanJson (JSNum.fin _)) "dinner" =
      some (Json.num (jround (JSNum.fin _ * JSNum.fin 0.30))) from rfl,
      JSNum.fin_mul_fin, jround_fin, mul_comm _ (0.30 : ℚ)]
  · refine ⟨Json.obj [("name", Json.str "Greek yogurt with berries"),
      ("foods", Json.arr [Json.str "1 cup Greek yogurt", Json.str "1/2 cup mixed berries"]),
      ("calories", Json.num (jround (JSNum.fin _ * JSNum.fin 0.10)))], rfl, ?_, rfl⟩
    rw [show jsGetField (Json.obj [("name", Json.str "Greek yogurt with berries"),
      ("foods", Json.arr [Json.str "1 cup Greek yogurt", Json.str "1/2 cup mixed berries"]),
      ("calories", Json.num (jround (JSNum.fin _ * JSNum.fin 0.10)))]) "calories" =
      some (Json.num (jround (JSNum.fin _ * JSNum.fin 0.10))) from rfl,
      JSNum.fin_mul_fin, jround_fin, mul_comm _ (0.10 : ℚ)]

/-- Witness for C3 at a concrete input: target 1100, no JSON in the
generated text, breakfast at round(0.25 * 1100) = 275. -/
theorem fallback_plan_structure_witness :
    parseDietPlan "no json here" (JSNum.fin 1100) = fallbackPlanJson (JSNum.fin 1100) ∧
    jsGetField (fallbackPlanJson (JSNum.fin 1100)) "dailyCalories" =
      some (Json.num (JSNum.fin 1100)) ∧
    mealCalories (fallbackPlanJson (JSNum.fin 1100)) "breakfast" =
      some (Json.num (JSNum.fin 275)) := by
  obtain ⟨t, ht, hparse, hdaily, hb, -⟩ := fallback_plan_structure "weight_loss" 80 70 30 10
    "no json here" (by norm_num) ⟨"No JSON found in response", rfl⟩
  have hc : computeTargetCalories "weight_loss" 80 70 30 10 = JSNum.fin 1100 := by
    rw [computeTargetCalories_fin _ _ _ _ _ (show (10 : ℚ) ≠ 0 by norm_num)]
    norm_num [specBaseBMR, specDailyAdj, jroundQ]
  rw [hc] at ht
  have htv : t = 1100 := by
    have := ht.symm
    rwa [JSNum.fin.injEq] at this
  subst htv
  rw [show jroundQ (0.25 * (1100 : ℚ)) = 275 by norm_num [jroundQ]] at hb
  exact ⟨hparse, hdaily, hb⟩

/-- Claim C4 counterexample: the text `xx\x7b\x7dyy` yields the span
`\x7b\x7d`, which parses as the empty object; the empty object does not
conform to the DietPlan shape, yet the parse step returns it instead of
the fallback plan — no shape validation exists in the code. -/
theorem noShapeValidation_counterexample :
    tryParseDietPlan "xx\x7b\x7dyy" = Except.ok (Json.obj []) ∧
    isDietPlanShape (Json.obj []) = false ∧
    parseDietPlan "xx\x7b\x7dyy" (JSNum.fin 1100) = Json.obj [] ∧
    Json.obj [] ≠ fallbackPlanJson (JSNum.fin 1100) := by
  refine ⟨rfl, rfl, rfl, ?_⟩
  intro hc
  simp only [fallbackPlanJson] at hc
  injection hc with h
  exact List.noConfusion h

/-- Claim C4 as amended: the fallback is produced exactly when extraction
finds no span or `JSON.parse` throws; a successfully parsed span is
returned as-is, with no validation of the DietPlan shape. -/
theorem parse_fallback_exactly_on_failure (text : String) (t : JSNum) :
    (∀ e, tryParseDietPlan text = Except.error e → parseDietPlan text t = fallbackPlanJson t) ∧
    (∀ j, tryParseDietPlan text = Except.ok j → parseDietPlan text t = j) := by
  constructor
  · intro e he
    unfold parseDietPlan
    rw [he]
  · intro j hj
    unfold parseDietPlan
    rw [hj]

/-- Witness for the amended C4 at concrete inputs: one failing parse and
one successful parse of a non-conforming object. -/
theorem parse_fallback_exactly_on_failure_witness :
    parseDietPlan "abc" (JSNum.fin 5) = fallbackPlanJson (JSNum.fin 5) ∧
    parseDietPlan "ab\x7b\x7dcd" (JSNum.fin 5) = Json.obj [] :=
  ⟨(parse_fallback_exactly_on_failure "abc" (JSNum.fin 5)).1 "No JSON found in response" rfl,
   (parse_fallback_exactly_on_failure "ab\x7b\x7dcd" (JSNum.fin 5)).2 (Json.obj []) rfl⟩

set_option maxRecDepth 100000 in
/-- Claim C5 counterexample: `c5BadText` contains (as a prefix) a
syntactically valid JSON object conforming to the DietPlan shape, but the
greedy extraction swallows the trailing stray brace, `JSON.parse` then
fails on the span, and the parse step returns the fallback plan — whose
breakfast foods differ from the parsed values of the contained object. -/
theorem greedyExtraction_counterexample :
    c5BadText = c5PlanText ++ " \x7d" ∧
    (jsonParse c5PlanText).isSome = true ∧
    isDietPlanShape ((jsonParse c5PlanText).getD Json.null) = true ∧
    (jsGetField ((jsonParse c5PlanText).getD Json.null) "breakfast").bind
        (fun m => jsGetField m "foods") =
      some (Json.arr [Json.str "a"]) ∧
    parseDietPlan c5BadText (JSNum.fin 0) = fallbackPlanJson (JSNum.fin 0) ∧
    (jsGetField (fallbackPlanJson (JSNum.fin 0)) "breakfast").bind
        (fun m => jsGetField m "foods") =
      some (Json.arr [Json.str "2 slices whole grain toast", Json.str "1 medium banana",
        Json.str "1 tbsp peanut butter"]) ∧
    (Json.arr [Json.str "a"] : Json) ≠ Json.arr [Json.str "2 slices whole grain toast",
      Json.str "1 medium banana", Json.str "1 tbsp peanut butter"] := by
  refine ⟨rfl, rfl, rfl, rfl, rfl, rfl, ?_⟩
  intro hc
  simp only [Json.arr.injEq, List.cons.injEq] at hc
  exact List.noConfusion hc.2

/-- Claim C5 as amended: extraction selects exactly the substring from
the first opening brace to the last closing brace, and whenever that
extracted span itself parses as JSON, the parse step returns exactly the
parsed value; containing a valid DietPlan object is not sufficient, as
the greedy span may include surrounding text (see the counterexample). -/
theorem extraction_greedy_and_span_returned (pre mid suf : String) (t : JSNum)
    (hpre : '\x7b' ∉ pre.data) (hsuf : '\x7d' ∉ suf.data) :
    extractBraceSpan (pre ++ "\x7b" ++ mid ++ "\x7d" ++ suf) = some ("\x7b" ++ mid ++ "\x7d") ∧
    (∀ j, jsonParse ("\x7b" ++ mid ++ "\x7d") = some j →
      parseDietPlan (pre ++ "\x7b" ++ mid ++ "\x7d" ++ suf) t = j) := by
  have hx := extractBraceSpan_greedy pre mid suf hpre hsuf
  refine ⟨hx, fun j hj => ?_⟩
  unfold parseDietPlan tryParseDietPlan
  simp only [hx, hj]

/-- Witness for the amended C5: prose around a brace-delimited object,
whose parsed value is returned exactly. -/
theorem extraction_greedy_and_span_returned_witness :
    extractBraceSpan ("Sure! " ++ "\x7b" ++ "\"a\":true" ++ "\x7d" ++ " done") =
      some ("\x7b" ++ "\"a\":true" ++ "\x7d") ∧
    parseDietPlan ("Sure! " ++ "\x7b" ++ "\"a\":true" ++ "\x7d" ++ " done") JSNum.nan =
      Json.obj [("a", Json.bool true)] := by
  obtain ⟨h1, h2⟩ := extraction_greedy_and_span_returned "Sure! " "\"a\":true" " done"
    JSNum.nan (by decide) (by decide)
  exact ⟨h1, h2 _ rfl⟩

/-- Claim C6 (confirmed): a missing (or empty, hence falsy) credential
fails before the network call with the configuration message; a non-ok
response or a response missing the candidates/content envelope fails
after the call; every failure becomes the `\x7berror, details\x7d`
envelope with status 500 and is never a success carrying a plan. -/
theorem generate_error_envelopes (req : DietPlanRequest) (resp : ProviderResponse) :
    handleRequest none req resp =
      (HandlerOutcome.failure "GEMINI_API_KEY not found in environment variables", false) ∧
    (∀ k : String, k ≠ "" → resp.ok = false →
      handleRequest (some k) req resp =
        (HandlerOutcome.failure
          ("Gemini API error: " ++ toString resp.status ++ " " ++ resp.statusText), true)) ∧
    (∀ k : String, k ≠ "" → resp.ok = true → invalidEnvelope resp.body = true →
      handleRequest (some k) req resp =
        (HandlerOutcome.failure "Invalid response from Gemini API", true)) ∧
    (∀ msg, handlerHttp (HandlerOutcome.failure msg) =
      (Json.obj [("error", Json.str msg),
        ("details", Json.str "Failed to generate diet plan")], 500)) ∧
    (∀ msg plan, HandlerOutcome.failure msg ≠ HandlerOutcome.success plan) := by
  refine ⟨rfl, ?_, ?_, fun msg => rfl, fun msg plan h => HandlerOutcome.noConfusion h⟩
  · intro k hk hok
    simp [handleRequest, hk, hok]
  · intro k hk hok henv
    simp [handleRequest, hk, hok, henv]

/-- Witness for C6 at concrete inputs: absent credential, a 503
response, and an ok response whose body lacks the envelope. -/
theorem generate_error_envelopes_witness :
    handleRequest none ⟨"weight_loss", 80, 70, 30, "vegetarian", 10⟩
        ⟨true, 200, "OK", Json.null⟩ =
      (HandlerOutcome.failure "GEMINI_API_KEY not found in environment variables", false) ∧
    handleRequest (some "key") ⟨"weight_loss", 80, 70, 30, "vegetarian", 10⟩
        ⟨false, 503, "Service Unavailable", Json.null⟩ =
      (HandlerOutcome.failure
        ("Gemini API error: " ++ toString (503 : ℕ) ++ " " ++ "Service Unavailable"), true) ∧
    handleRequest (some "key") ⟨"weight_loss", 80, 70, 30, "vegetarian", 10⟩
        ⟨true, 200, "OK", Json.obj []⟩ =
      (HandlerOutcome.failure "Invalid response from Gemini API", true) :=
  ⟨(generate_error_envelopes ⟨"weight_loss", 80, 70, 30, "vegetarian", 10⟩
      ⟨true, 200, "OK", Json.null⟩).1,
   (generate_error_envelopes ⟨"weight_loss", 80, 70, 30, "vegetarian", 10⟩
      ⟨false, 503, "Service Unavailable", Json.null⟩).2.1 "key" (by decide) rfl,
   (generate_error_envelopes ⟨"weight_loss", 80, 70, 30, "vegetarian", 10⟩
      ⟨true, 200, "OK", Json.obj []⟩).2.2.1 "key" (by decide) rfl rfl⟩
